import Mathlib

set_option maxRecDepth 10000

/-!
Verification of the fee-credit ledger primitive of `percolator.rs`.

The source shows four settlement paths, each updating the signed
`fee_credits` balance (an `i128`) by the line
`fee_credits = fee_credits.saturating_add(u128_to_i128_clamped(pay))`
where `pay` is a `u128` payment magnitude.

We embed `i128` values as `Int` together with the range predicate
`i128_valid`, and `u128` values as `Nat` together with `u128_valid`.
Rust's `i128::saturating_add` is embedded as `i128_saturating_add`
following its documented semantics (clamp the true sum to the
representable range instead of wrapping).
-/

/-- Minimum value of Rust's `i128`: `-(2^127)`. -/
def I128_MIN : Int := -(2 ^ 127)

/-- Maximum value of Rust's `i128`: `2^127 - 1`. -/
def I128_MAX : Int := 2 ^ 127 - 1

/-- Maximum value of Rust's `u128`: `2^128 - 1`. -/
def U128_MAX : Nat := 2 ^ 128 - 1

/-- Range predicate for an embedded `i128` value. -/
abbrev i128_valid (x : Int) : Prop := I128_MIN ≤ x ∧ x ≤ I128_MAX

/-- Range predicate for an embedded `u128` value. -/
abbrev u128_valid (p : Nat) : Prop := p ≤ U128_MAX

/-- Rust's `i128::saturating_add`: returns the mathematical sum when it is
representable, and otherwise clamps it to `I128_MAX` or `I128_MIN`. -/
def i128_saturating_add (a b : Int) : Int :=
  if a + b > I128_MAX then I128_MAX
  else if a + b < I128_MIN then I128_MIN
  else a + b

/-- Modelled from the spec: the body of `u128_to_i128_clamped` is not in the
source fragment (only its four call sites are).  Per §3 and §4.1 step 1 of the
spec, a `Payment` exceeding the signed type's maximum is truncated to that
maximum; otherwise the conversion is exact. -/
def u128_to_i128_clamped (pay : Nat) : Int :=
  if (pay : Int) > I128_MAX then I128_MAX else (pay : Int)

/-- Fee-credit update performed by `settle_maintenance_fee`
(percolator.rs line 9). -/
def settle_maintenance_fee (fee_credits : Int) (pay : Nat) : Int :=
  i128_saturating_add fee_credits (u128_to_i128_clamped pay)

/-- Fee-credit update performed by `settle_maintenance_fee_best_effort_for_crank`
(percolator.rs line 15). -/
def settle_maintenance_fee_best_effort_for_crank (fee_credits : Int) (pay : Nat) : Int :=
  i128_saturating_add fee_credits (u128_to_i128_clamped pay)

/-- Fee-credit update performed by `pay_fee_debt_from_capital`
(percolator.rs line 21). -/
def pay_fee_debt_from_capital (fee_credits : Int) (pay : Nat) : Int :=
  i128_saturating_add fee_credits (u128_to_i128_clamped pay)

/-- Fee-credit update performed by `deposit` (percolator.rs line 27). -/
def deposit (fee_credits : Int) (pay : Nat) : Int :=
  i128_saturating_add fee_credits (u128_to_i128_clamped pay)

/-- The `accumulate` operation exactly as §4.1 of the spec words it:
step 1 converts `pay` with a clamped conversion (clamp at the signed maximum,
exact otherwise); step 2 adds the delta with saturating addition (saturate at
the signed maximum or minimum instead of wrapping).  Stated from the spec to
compare against the four source update functions. -/
def accumulate_spec (balance : Int) (pay : Nat) : Int :=
  let delta : Int := if (pay : Int) > I128_MAX then I128_MAX else (pay : Int)
  if balance + delta > I128_MAX then I128_MAX
  else if balance + delta < I128_MIN then I128_MIN
  else balance + delta

/-- Modelled from the spec: the crank's per-account iteration is not in the
source fragment (only the per-account `settle_maintenance_fee_best_effort_for_crank`
body is).  Per §5 and §7 of the spec, a crank pass visits each account record
independently; an account whose record is missing (`none`) is skipped and the
pass continues with the remaining accounts. -/
def crank_pass (accounts : List (Option Int)) (pay : Nat) : List (Option Int) :=
  accounts.map (fun acct =>
    acct.map (fun fc => settle_maintenance_fee_best_effort_for_crank fc pay))

/-! Helper lemmas shared by the claim theorems. -/

theorem I128_bounds : I128_MIN < I128_MAX ∧ (0 : Int) ≤ I128_MAX := by decide

theorem clamp_eq_min (p : Nat) : u128_to_i128_clamped p = min ((p : Int)) I128_MAX := by
  unfold u128_to_i128_clamped
  split_ifs with h <;> omega

theorem sat_add_eq_clamp (a d : Int) :
    i128_saturating_add a d = max I128_MIN (min I128_MAX (a + d)) := by
  have hmm : I128_MIN < I128_MAX := I128_bounds.1
  unfold i128_saturating_add
  split_ifs with h1 h2 <;> omega

theorem settle_eq_clamp (b : Int) (p : Nat) :
    settle_maintenance_fee b p = max I128_MIN (min I128_MAX (b + min ((p : Int)) I128_MAX)) := by
  unfold settle_maintenance_fee
  rw [sat_add_eq_clamp, clamp_eq_min]

/-- C1: for every signed 128-bit balance and every unsigned 128-bit payment,
the fee-credit update of `settle_maintenance_fee` is total and returns the
mathematical sum of the balance and the clamped delta, clamped into the signed
128-bit range (saturating at `I128_MAX` from above and at `I128_MIN` from
below), and the result is always a valid `i128` value. -/
theorem C1_accumulate_total_saturating (b : Int) (p : Nat)
    (hb : i128_valid b) (hp : u128_valid p) :
    settle_maintenance_fee b p =
      max I128_MIN (min I128_MAX (b + u128_to_i128_clamped p)) ∧
    i128_valid (settle_maintenance_fee b p) := by
  have hmm : I128_MIN < I128_MAX := I128_bounds.1
  rw [settle_eq_clamp, clamp_eq_min]
  constructor
  · rfl
  · constructor <;> omega

theorem C1_accumulate_total_saturating_witness :
    settle_maintenance_fee 0 100 =
      max I128_MIN (min I128_MAX (0 + u128_to_i128_clamped 100)) ∧
    i128_valid (settle_maintenance_fee 0 100) :=
  C1_accumulate_total_saturating 0 100 (by decide) (by decide)

/-- C2: for every unsigned 128-bit payment strictly greater than `I128_MAX`,
the clamped conversion yields exactly `I128_MAX`, and never a negative (hence
never a wrapped) value. -/
theorem C2_clamp_above_threshold (p : Nat) (hp : u128_valid p)
    (h : (p : Int) > I128_MAX) :
    u128_to_i128_clamped p = I128_MAX ∧ 0 ≤ u128_to_i128_clamped p := by
  have h0 : (0 : Int) ≤ I128_MAX := I128_bounds.2
  rw [clamp_eq_min]
  constructor <;> omega

theorem C2_clamp_above_threshold_witness :
    u128_to_i128_clamped (2 ^ 127) = I128_MAX ∧ 0 ≤ u128_to_i128_clamped (2 ^ 127) :=
  C2_clamp_above_threshold (2 ^ 127) (by decide) (by decide)

/-- C3: for every unsigned 128-bit payment at most `I128_MAX`, the clamped
conversion is exact — the delta equals the payment — and for every balance the
update of `settle_maintenance_fee` is the saturating addition of exactly that
payment, with no rounding or truncation. -/
theorem C3_clamp_exact_below_threshold (b : Int) (p : Nat)
    (hp : (p : Int) ≤ I128_MAX) :
    u128_to_i128_clamped p = (p : Int) ∧
    settle_maintenance_fee b p = i128_saturating_add b ((p : Int)) := by
  have h : u128_to_i128_clamped p = (p : Int) := by
    rw [clamp_eq_min]; omega
  refine ⟨h, ?_⟩
  unfold settle_maintenance_fee
  rw [h]

theorem C3_clamp_exact_below_threshold_witness :
    u128_to_i128_clamped 7 = ((7 : Nat) : Int) ∧
    settle_maintenance_fee 5 7 = i128_saturating_add 5 (((7 : Nat) : Int)) :=
  C3_clamp_exact_below_threshold 5 7 (by decide)

/-- C4 counterexample: with `balance = I128_MIN` and
`pay1 = pay2 = 2^127 - 1` (each equal to `I128_MAX`, so within the clamp
threshold), the first application does not saturate — the intermediate balance
`-1` is strictly inside the signed range — yet applying `pay1` then `pay2`
yields `I128_MAX - 1` while applying `pay1 + pay2` in one step yields `-1`,
because the one-step conversion clamps `pay1 + pay2` down to `I128_MAX`.
Hence the claim that absence of intermediate saturation alone guarantees the
two results agree is false at this input. -/
theorem C4_counterexample :
    ¬ ((I128_MIN ≤ I128_MIN + u128_to_i128_clamped (2 ^ 127 - 1) ∧
        I128_MIN + u128_to_i128_clamped (2 ^ 127 - 1) ≤ I128_MAX) →
       settle_maintenance_fee (settle_maintenance_fee I128_MIN (2 ^ 127 - 1)) (2 ^ 127 - 1) =
         settle_maintenance_fee I128_MIN (2 ^ 127 - 1 + (2 ^ 127 - 1))) := by
  decide

set_option maxHeartbeats 2000000 in
/-- C4 (amended): applying `pay1` then `pay2` agrees with applying
`pay1 + pay2` in one step whenever no intermediate saturation occurs AND
`pay1 + pay2` does not exceed `I128_MAX` (so the combined conversion does not
clamp); and whenever a saturating addition saturates in either step, the
two-step result is at least the unsaturated mathematical sum
`balance + pay1 + pay2` clamped at `I128_MAX`. -/
theorem C4_step_composition (b : Int) (p1 p2 : Nat)
    (hb : i128_valid b) (hp1 : u128_valid p1) (hp2 : u128_valid p2) :
    (((p1 : Int) + (p2 : Int) ≤ I128_MAX →
      (I128_MIN ≤ b + u128_to_i128_clamped p1 ∧
       b + u128_to_i128_clamped p1 ≤ I128_MAX) →
      settle_maintenance_fee (settle_maintenance_fee b p1) p2 =
        settle_maintenance_fee b (p1 + p2)) ∧
     ((¬ (I128_MIN ≤ b + u128_to_i128_clamped p1 ∧
          b + u128_to_i128_clamped p1 ≤ I128_MAX) ∨
       ¬ (I128_MIN ≤ settle_maintenance_fee b p1 + u128_to_i128_clamped p2 ∧
          settle_maintenance_fee b p1 + u128_to_i128_clamped p2 ≤ I128_MAX)) →
      settle_maintenance_fee (settle_maintenance_fee b p1) p2 ≥
        min (b + (p1 : Int) + (p2 : Int)) I128_MAX)) := by
  have hmm : I128_MIN < I128_MAX := I128_bounds.1
  have h0 : (0 : Int) ≤ I128_MAX := I128_bounds.2
  simp only [settle_maintenance_fee, i128_saturating_add, u128_to_i128_clamped]
  push_cast
  constructor
  · intro hsum hrange
    split_ifs at * <;> omega
  · intro hsat
    split_ifs at * <;> omega

theorem C4_step_composition_witness :
    (((10 : Nat) : Int) + ((20 : Nat) : Int) ≤ I128_MAX →
      (I128_MIN ≤ (5 : Int) + u128_to_i128_clamped 10 ∧
       (5 : Int) + u128_to_i128_clamped 10 ≤ I128_MAX) →
      settle_maintenance_fee (settle_maintenance_fee 5 10) 20 =
        settle_maintenance_fee 5 (10 + 20)) ∧
    ((¬ (I128_MIN ≤ (5 : Int) + u128_to_i128_clamped 10 ∧
         (5 : Int) + u128_to_i128_clamped 10 ≤ I128_MAX) ∨
      ¬ (I128_MIN ≤ settle_maintenance_fee 5 10 + u128_to_i128_clamped 20 ∧
         settle_maintenance_fee 5 10 + u128_to_i128_clamped 20 ≤ I128_MAX)) →
     settle_maintenance_fee (settle_maintenance_fee 5 10) 20 ≥
       min ((5 : Int) + ((10 : Nat) : Int) + ((20 : Nat) : Int)) I128_MAX) :=
  C4_step_composition 5 10 20 (by decide) (by decide) (by decide)

/-- C5: for every signed 128-bit balance and unsigned 128-bit payment, the
update never decreases the balance when no saturation occurs, and the result
always lies within the signed 128-bit range. -/
theorem C5_monotone_and_in_range (b : Int) (p : Nat)
    (hb : i128_valid b) (hp : u128_valid p) :
    ((I128_MIN ≤ b + u128_to_i128_clamped p ∧
      b + u128_to_i128_clamped p ≤ I128_MAX) →
      b ≤ settle_maintenance_fee b p) ∧
    i128_valid (settle_maintenance_fee b p) := by
  have hmm : I128_MIN < I128_MAX := I128_bounds.1
  have h0 : (0 : Int) ≤ I128_MAX := I128_bounds.2
  simp only [settle_maintenance_fee, i128_saturating_add, u128_to_i128_clamped, i128_valid]
  constructor
  · intro hrange
    split_ifs at * <;> omega
  · split_ifs <;> omega

theorem C5_monotone_and_in_range_witness :
    ((I128_MIN ≤ (-30 : Int) + u128_to_i128_clamped 50 ∧
      (-30 : Int) + u128_to_i128_clamped 50 ≤ I128_MAX) →
      (-30 : Int) ≤ settle_maintenance_fee (-30) 50) ∧
    i128_valid (settle_maintenance_fee (-30) 50) :=
  C5_monotone_and_in_range (-30) 50 (by decide) (by decide)

/-- C6: all four mutation paths — maintenance settlement, crank best-effort
settlement, debt repayment from capital, and deposit — update the fee-credit
balance by one and the same function of `(balance, pay)`: the clamped
conversion followed by saturating addition described in §4.1 of the spec.
The four embedded update functions are extensionally (indeed definitionally)
equal to the spec's `accumulate` operation, so no path adds, subtracts, or
casts the payment into the balance by any other construction. -/
theorem C6_all_paths_use_accumulate :
    settle_maintenance_fee = accumulate_spec ∧
    settle_maintenance_fee_best_effort_for_crank = accumulate_spec ∧
    pay_fee_debt_from_capital = accumulate_spec ∧
    deposit = accumulate_spec :=
  ⟨rfl, rfl, rfl, rfl⟩

/-- C7: in a best-effort crank pass over a list of account records, each
account's resulting entry is a function of that account's own input entry
alone: a missing record (`none`, a failed settlement) is skipped, does not
change the results of the other accounts at their positions, and does not
abort the processing of subsequent accounts — the pass always produces an
output entry for every input position. -/
theorem C7_crank_per_account_isolation (accounts : List (Option Int)) (pay : Nat) (i : Nat) :
    (crank_pass accounts pay).length = accounts.length ∧
    (crank_pass accounts pay)[i]? =
      (accounts[i]?).map
        (Option.map (fun fc => settle_maintenance_fee_best_effort_for_crank fc pay)) := by
  constructor
  · simp [crank_pass]
  · simp [crank_pass]

/-- C8: at `pay = U128_MAX` the clamped delta equals `I128_MAX`, and
accumulating that payment into a zero balance yields exactly `I128_MAX`. -/
theorem C8_umax_payment_saturates :
    u128_to_i128_clamped U128_MAX = I128_MAX ∧
    settle_maintenance_fee 0 U128_MAX = I128_MAX := by
  decide

/-- C9: the fee-credit update is a pure, deterministic function of its two
inputs: two invocations on equal balance and payment inputs return equal
results.  (Side-effect freedom holds by construction of the embedding: the
source line computes the new balance from `fee_credits` and `pay` alone.) -/
theorem C9_deterministic (b1 b2 : Int) (p1 p2 : Nat)
    (hb : b1 = b2) (hp : p1 = p2) :
    settle_maintenance_fee b1 p1 = settle_maintenance_fee b2 p2 := by
  rw [hb, hp]

theorem C9_deterministic_witness :
    settle_maintenance_fee 42 9 = settle_maintenance_fee 42 9 :=
  C9_deterministic 42 42 9 9 rfl rfl

/-- C10: for every valid balance and payment — saturation included — the
update never decreases the balance; the minimum-saturation branch of the
saturating addition is unreachable (the sum of a valid balance and the
non-negative clamped delta never falls below `I128_MIN`); and the result is
`I128_MIN` only when the input balance was already `I128_MIN`. -/
theorem C10_never_decreases (b : Int) (p : Nat)
    (hb : i128_valid b) (hp : u128_valid p) :
    b ≤ settle_maintenance_fee b p ∧
    ¬ (b + u128_to_i128_clamped p < I128_MIN) ∧
    (settle_maintenance_fee b p = I128_MIN → b = I128_MIN) := by
  have hmm : I128_MIN < I128_MAX := I128_bounds.1
  have h0 : (0 : Int) ≤ I128_MAX := I128_bounds.2
  rw [settle_eq_clamp, clamp_eq_min]
  refine ⟨?_, ?_, ?_⟩ <;> omega

theorem C10_never_decreases_witness :
    (0 : Int) ≤ settle_maintenance_fee 0 100 ∧
    ¬ ((0 : Int) + u128_to_i128_clamped 100 < I128_MIN) ∧
    (settle_maintenance_fee 0 100 = I128_MIN → (0 : Int) = I128_MIN) :=
  C10_never_decreases 0 100 (by decide) (by decide)
